import Mathlib

/-!
Verification of the TempWalletsNotifyBot repository (two Python sources:
`app.py`, the webhook-based entry point, and `telegram_bot.py`, the
polling-based variant) against its natural-language specification.

The repository is shallowly embedded: request bodies are modelled as JSON
values, the two `/send_telegram_notification` Flask handlers as pure
functions of the request plus the eventual outcome of the platform send,
the command handlers (`start`, `my_chat_id`) as functions from inbound
updates to lists of reply texts, and the startup steps (token loading,
webhook registration) as functions of the environment.
-/

namespace NotifyBot

/-- A JSON value as it can appear in a request body field. -/
inductive Json where
  | null
  | str (s : String)
  | int (n : Int)
  | bool (b : Bool)
  deriving Repr, DecidableEq

/-- Python truthiness of a JSON value: `None`, `""`, `0` and `False`
are falsy; everything else is truthy. -/
def Json.truthy : Json → Bool
  | .null => false
  | .str s => s ≠ ""
  | .int n => n ≠ 0
  | .bool b => b

/-- The body of a `/send_telegram_notification` request: each field is
`none` when the key is absent from the JSON object. -/
structure NotifyRequest where
  chat_id : Option Json
  message : Option Json
  deriving Repr, DecidableEq

/-- Python `dict.get`: an absent key yields `None` (here `Json.null`),
so an absent field and an explicit `null` are indistinguishable. -/
def dictGet : Option Json → Json
  | none => Json.null
  | some v => v

/-- The JSON body of an HTTP response from the notification endpoint. -/
inductive Body where
  | statusMsg (s : String)
  | errorMsg (s : String)
  deriving Repr, DecidableEq

/-- Observable effect of one call to the notification endpoint: the HTTP
status and body returned to the caller, how many Work Units were handed
to the event loop, and how many `send_message` calls reach the Session. -/
structure EndpointResult where
  status : Nat
  body : Body
  workUnitsEnqueued : Nat
  sessionSends : Nat
  deriving Repr, DecidableEq

/-- Eventual outcome of the platform `send_message` call: success, or a
platform error carrying its message. -/
inductive SendOutcome where
  | ok
  | err (msg : String)
  deriving Repr, DecidableEq

namespace App

/-- `app.py` lines 91-118, `send_telegram_notification`: validate
`chat_id`/`message` by Python truthiness; on failure return 400 with
`{"error": "Missing chat_id or message"}` and submit nothing; on success
submit the send coroutine to the bot's event loop and block on
`.result()`, returning 200 `{"status": "Message sent"}` if the send
succeeds and 500 `{"error": str(e)}` if it raises. `outcome` is the
eventual outcome of the platform send. -/
def send_telegram_notification (req : NotifyRequest) (outcome : SendOutcome) :
    EndpointResult :=
  let chat_id := dictGet req.chat_id
  let message_text := dictGet req.message
  if !chat_id.truthy || !message_text.truthy then
    { status := 400, body := .errorMsg "Missing chat_id or message",
      workUnitsEnqueued := 0, sessionSends := 0 }
  else
    match outcome with
    | .ok =>
      { status := 200, body := .statusMsg "Message sent",
        workUnitsEnqueued := 1, sessionSends := 1 }
    | .err e =>
      { status := 500, body := .errorMsg e,
        workUnitsEnqueued := 1, sessionSends := 1 }

end App

namespace TgBot

/-- `telegram_bot.py` lines 216-234, `send_telegram_notification`: same
validation, but `run_coroutine_threadsafe` is called without `.result()`:
the handler returns 200 `{"status": "Message queued for sending"}` as soon
as the coroutine is submitted, without consulting the send's eventual
`outcome` (which is logged inside the loop and otherwise discarded). -/
def send_telegram_notification (req : NotifyRequest) (outcome : SendOutcome) :
    EndpointResult :=
  let chat_id := dictGet req.chat_id
  let message_text := dictGet req.message
  if !chat_id.truthy || !message_text.truthy then
    { status := 400, body := .errorMsg "Missing chat_id or message",
      workUnitsEnqueued := 0, sessionSends := 0 }
  else
    { status := 200, body := .statusMsg "Message queued for sending",
      workUnitsEnqueued := 1, sessionSends := 1 }

end TgBot

/-- An inbound Telegram update as consumed by the command handlers:
the chat identifier (`update.effective_chat.id`), the originating user's
first name (`update.effective_user.first_name`; `none` when missing),
and the command carried by the message. -/
structure Update where
  chat_id : Int
  first_name : Option String
  command : String
  deriving Repr, DecidableEq

/-- A command handler maps an inbound update to the list of reply texts
it sends back into the originating chat. -/
abbrev Handler := Update → List String

/-- The display-name computation shared by both `my_chat_id` variants
(`app.py` line 54, `telegram_bot.py` line 205): the user's first name if
it is truthy (present and non-empty), otherwise the literal `"User"`. -/
def user_display_name : Option String → String
  | some s => if s = "" then "User" else s
  | none => "User"

/-- Modelled from the spec: `user.mention_html()` is rendered by the
external telegram library (not present in src); modelled as the user's
display name, which no claim in this development depends on. -/
def mention_html (u : Update) : String :=
  user_display_name u.first_name

namespace App

/-- `app.py` lines 42-49, the `start` handler: one `reply_html` call. -/
def start (u : Update) : List String :=
  ["Hi " ++ mention_html u ++ "! I'm your notification bot. " ++
   "Send /mychatid to get your unique Telegram Chat ID."]

/-- `app.py` lines 51-62, the `my_chat_id` handler: one `reply_text`
call whose text greets the display name and quotes the chat id. -/
def my_chat_id (u : Update) : List String :=
  let chat_id := u.chat_id
  let user_name := user_display_name u.first_name
  let response_message :=
    "Hello " ++ user_name ++ "!\n\n" ++
    ("Your Telegram Chat ID is: `" ++ toString chat_id ++ "`\n\n" ++
     "Please copy this ID and use it for your notifications.")
  [response_message]

end App

namespace TgBot

/-- `telegram_bot.py` lines 196-201, the `start` handler. -/
def start (u : Update) : List String :=
  ["Hi " ++ mention_html u ++ "! I'm your notification bot. " ++
   "Send /mychatid to get your unique Telegram Chat ID."]

/-- `telegram_bot.py` lines 203-213, the `my_chat_id` handler. -/
def my_chat_id (u : Update) : List String :=
  let chat_id := u.chat_id
  let user_name := user_display_name u.first_name
  let response_message :=
    "Hello " ++ user_name ++ "!\n\n" ++
    ("Your Telegram Chat ID is: `" ++ toString chat_id ++ "`\n\n" ++
     "Please copy this ID and paste it into the 'Telegram Notifications' section " ++
     "on the TempWallets website to enable transaction notifications.")
  [response_message]

end TgBot

/-- The error raised by the Command Registry when a command name is
registered twice. -/
structure DuplicateCommandError where
  name : String
  deriving Repr, DecidableEq

/-- The Command Registry: an ordered association of command names to
handlers, populated once during startup. -/
abbrev Registry := List (String × Handler)

/-- Modelled from the spec: the Command Registry's `register` operation
("fails with a `DuplicateCommandError` if `name` already present") is not
implemented in src — the sources delegate registration to the external
`telegram.ext.Application.add_handler`; modelled faithful to the spec's
words. -/
def register (reg : Registry) (nm : String) (h : Handler) :
    Except DuplicateCommandError Registry :=
  if reg.any (fun p => p.1 == nm) then .error ⟨nm⟩
  else .ok (reg ++ [(nm, h)])

/-- Modelled from the spec: `lookup(name) -> handler | none` over the
populated registry. -/
def lookup (reg : Registry) (nm : String) : Option Handler :=
  (reg.find? (fun p => p.1 == nm)).map Prod.snd

/-- Modelled from the spec (§4.1): `processUpdate` looks the command up
in the Registry; if found, invokes the handler, collecting its replies;
if not found, no-op (the update is silently ignored). The dispatch itself
(`Application.process_update`) is external library code not in src. -/
def processUpdate (reg : Registry) (u : Update) : List String :=
  match lookup reg u.command with
  | some h => h u
  | none => []

/-- The registry as populated by `app.py` lines 65-66: `"start"` then
`"mychatid"`, in that order. -/
def App.bot_registry : Registry :=
  [("start", App.start), ("mychatid", App.my_chat_id)]

/-- The registry as populated by `telegram_bot.py` lines 238-239 inside
`run_bot_polling`: `"start"` then `"mychatid"`. -/
def TgBot.bot_registry : Registry :=
  [("start", TgBot.start), ("mychatid", TgBot.my_chat_id)]

namespace App

/-- `app.py` lines 19-24: `TOKEN = os.getenv("TELEGRAM_BOT_TOKEN")`
followed by `if not TOKEN: raise ValueError(...)` — a missing or empty
environment value is fatal to startup, with no fallback. -/
def loadToken (env : Option String) : Except String String :=
  match env with
  | some t =>
    if t = "" then .error "TELEGRAM_BOT_TOKEN environment variable is missing."
    else .ok t
  | none => .error "TELEGRAM_BOT_TOKEN environment variable is missing."

end App

namespace TgBot

/-- `telegram_bot.py` lines 186-188:
`TOKEN = os.getenv("TELEGRAM_BOT_TOKEN", "YOUR_FALLBACK_DEV_TOKEN")` —
when the variable is absent the hardcoded fallback value is substituted,
a warning is logged, and startup continues. -/
def loadToken (env : Option String) : Except String String :=
  match env with
  | some t => .ok t
  | none => .ok "YOUR_FALLBACK_DEV_TOKEN"

end TgBot

/-- What the calling thread observes from waiting on the Future returned
by `run_coroutine_threadsafe`: the completed outcome, a
`concurrent.futures.TimeoutError`, or an unbounded block (the wait never
returns because the Work Unit never completes). -/
inductive WaitResult where
  | completed (o : SendOutcome)
  | timedOut
  | blocked
  deriving Repr, DecidableEq

/-- `concurrent.futures.Future.result(timeout)`: when a timeout is given,
the wait raises `TimeoutError` if the Work Unit has not completed within
it; when no timeout is given, the wait is unbounded — it returns only if
the Work Unit completes (`completionTime` is the Work Unit's completion
time, `none` when it never completes). -/
def futureResult (timeout : Option Nat) (completionTime : Option Nat)
    (o : SendOutcome) : WaitResult :=
  match completionTime, timeout with
  | some t, some d => if t ≤ d then .completed o else .timedOut
  | some _, none => .completed o
  | none, some _ => .timedOut
  | none, none => .blocked

/-- `app.py` line 112: `.result()` is invoked with no timeout argument. -/
def App.resultCallTimeout : Option Nat := none

/-- Outcome of one startup step in `app.py`'s `__main__` block: either
startup proceeds (carrying the webhook address registered with the
platform, if any), or the process exits with the given code. -/
inductive StartupStep where
  | proceed (registered : Option String)
  | exited (code : Nat)
  deriving Repr, DecidableEq

namespace App

/-- `app.py` lines 122-140, `set_telegram_webhook_async`: when
`WEBHOOK_URL` is configured, register `WEBHOOK_URL + "/telegram-webhook"`
with the platform and re-raise any failure; when it is not configured,
log a warning and return without registering anything. `setOutcome` is
the outcome of the platform `set_webhook` call. Returns the registered
address on success. -/
def set_telegram_webhook (webhook_url : Option String)
    (setOutcome : Except String Unit) : Except String (Option String) :=
  match webhook_url with
  | some u =>
    match setOutcome with
    | .ok _ => .ok (some (u ++ "/telegram-webhook"))
    | .error e => .error e
  | none => .ok none

/-- `app.py` lines 151-156: the `__main__` block runs
`set_telegram_webhook_async` to completion; any exception is logged as
critical and the process exits with code 1; otherwise startup proceeds
to the Flask server. -/
def webhook_startup_step (webhook_url : Option String)
    (setOutcome : Except String Unit) : StartupStep :=
  match set_telegram_webhook webhook_url setOutcome with
  | .ok r => .proceed r
  | .error _ => .exited 1

end App

/-- The reply `reply` greets the display name `who`: the rendered text
begins with "Hello ", the name and an exclamation mark. -/
def greets (reply who : String) : Prop :=
  ("Hello " ++ who ++ "!").data <+: reply.data

end NotifyBot

namespace NotifyBot

/-- Helper: whatever the first name, the reply of the app.py `my_chat_id`
handler begins with a greeting of the computed display name. -/
theorem App.app_mychatid_greets_display (cid : Int) (fn : Option String) :
    greets ((App.my_chat_id ⟨cid, fn, "mychatid"⟩).head!) (user_display_name fn) := by
  unfold App.my_chat_id greets
  simp only [List.head!]
  refine ⟨('\n' :: '\n' ::
    ("Your Telegram Chat ID is: `" ++ toString cid ++ "`\n\n" ++
     "Please copy this ID and use it for your notifications.").data), ?_⟩
  simp [String.data_append]

/-- Helper: the same for the telegram_bot.py `my_chat_id` handler. -/
theorem TgBot.tg_mychatid_greets_display (cid : Int) (fn : Option String) :
    greets ((TgBot.my_chat_id ⟨cid, fn, "mychatid"⟩).head!) (user_display_name fn) := by
  unfold TgBot.my_chat_id greets
  simp only [List.head!]
  refine ⟨('\n' :: '\n' ::
    ("Your Telegram Chat ID is: `" ++ toString cid ++ "`\n\n" ++
     "Please copy this ID and paste it into the 'Telegram Notifications' section " ++
     "on the TempWallets website to enable transaction notifications.").data), ?_⟩
  simp [String.data_append]

/-- Helper: the app.py `my_chat_id` reply for chat 482910 contains the
digits of the chat id, whatever the first name. -/
theorem App.app_mychatid_reply_has_id (fn : Option String) :
    "482910".data <:+: ((App.my_chat_id ⟨482910, fn, "mychatid"⟩).head!).data := by
  unfold App.my_chat_id
  simp only [List.head!]
  have h1 : "482910".data <:+:
      ("Your Telegram Chat ID is: `" ++ toString (482910 : Int) ++ "`\n\n" ++
       "Please copy this ID and use it for your notifications.").data := by decide
  have h2 : ("Your Telegram Chat ID is: `" ++ toString (482910 : Int) ++ "`\n\n" ++
       "Please copy this ID and use it for your notifications.").data <:+
      ("Hello " ++ user_display_name fn ++ "!\n\n" ++
        ("Your Telegram Chat ID is: `" ++ toString (482910 : Int) ++ "`\n\n" ++
         "Please copy this ID and use it for your notifications.")).data := by
    refine ⟨("Hello " ++ user_display_name fn ++ "!\n\n").data, ?_⟩
    simp [String.data_append]
  exact h1.trans h2.isInfix

/-- Helper: the same for the telegram_bot.py `my_chat_id` reply. -/
theorem TgBot.tg_mychatid_reply_has_id (fn : Option String) :
    "482910".data <:+: ((TgBot.my_chat_id ⟨482910, fn, "mychatid"⟩).head!).data := by
  unfold TgBot.my_chat_id
  simp only [List.head!]
  have h1 : "482910".data <:+:
      ("Your Telegram Chat ID is: `" ++ toString (482910 : Int) ++ "`\n\n" ++
       "Please copy this ID and paste it into the 'Telegram Notifications' section " ++
       "on the TempWallets website to enable transaction notifications.").data := by decide
  have h2 : ("Your Telegram Chat ID is: `" ++ toString (482910 : Int) ++ "`\n\n" ++
       "Please copy this ID and paste it into the 'Telegram Notifications' section " ++
       "on the TempWallets website to enable transaction notifications.").data <:+
      ("Hello " ++ user_display_name fn ++ "!\n\n" ++
        ("Your Telegram Chat ID is: `" ++ toString (482910 : Int) ++ "`\n\n" ++
         "Please copy this ID and paste it into the 'Telegram Notifications' section " ++
         "on the TempWallets website to enable transaction notifications.")).data := by
    refine ⟨("Hello " ++ user_display_name fn ++ "!\n\n").data, ?_⟩
    simp [String.data_append]
  exact h1.trans h2.isInfix

/-- C1 (counterexample): in the telegram_bot.py variant a valid request
whose platform send eventually fails still receives HTTP 200 ("Message
queued for sending") — the caller is told success while the actual
outcome of the send is a failure, refuting the claim that the response
never reports success when the outcome is unknown or failed. -/
theorem tg_success_despite_failed_send :
    TgBot.send_telegram_notification
      ⟨some (.str "482910"), some (.str "Hello")⟩ (.err "network unreachable") =
    { status := 200, body := .statusMsg "Message queued for sending",
      workUnitsEnqueued := 1, sessionSends := 1 } := rfl

/-- C1 (amended): for every valid request exactly one send reaches the
Session in both variants; the app.py response reports the actual outcome
(200 on success, 500 carrying the platform error), while the
telegram_bot.py response is 200 "Message queued for sending" regardless
of the outcome of the send. -/
theorem send_notification_outcome_reporting (req : NotifyRequest) (o : SendOutcome)
    (hc : (dictGet req.chat_id).truthy = true)
    (hm : (dictGet req.message).truthy = true) :
    (App.send_telegram_notification req o).sessionSends = 1
    ∧ (TgBot.send_telegram_notification req o).sessionSends = 1
    ∧ (o = .ok → App.send_telegram_notification req o =
        { status := 200, body := .statusMsg "Message sent",
          workUnitsEnqueued := 1, sessionSends := 1 })
    ∧ (∀ e, o = .err e → App.send_telegram_notification req o =
        { status := 500, body := .errorMsg e,
          workUnitsEnqueued := 1, sessionSends := 1 })
    ∧ TgBot.send_telegram_notification req o =
        { status := 200, body := .statusMsg "Message queued for sending",
          workUnitsEnqueued := 1, sessionSends := 1 } := by
  unfold App.send_telegram_notification TgBot.send_telegram_notification
  rcases o with _ | e <;> simp [hc, hm]

/-- C1 (witness): a concrete valid request with a successful send. -/
theorem send_notification_outcome_reporting_witness :
    (App.send_telegram_notification
      ⟨some (.str "482910"), some (.str "Hello")⟩ .ok).sessionSends = 1 :=
  (send_notification_outcome_reporting
    ⟨some (.str "482910"), some (.str "Hello")⟩ .ok (by decide) (by decide)).1

/-- C2 (counterexample): app.py line 112 invokes `.result()` with no
timeout argument, so for a Work Unit that never completes the calling
thread blocks indefinitely — it never receives `TimeoutError`, refuting
the claim that the wait is bounded by a timeout. -/
theorem result_wait_unbounded :
    futureResult App.resultCallTimeout none SendOutcome.ok = WaitResult.blocked := rfl

/-- C2 (amended): the wait of a caller of app.py's notification endpoint
is not bounded: `.result()` carries no timeout, so the wait never yields
`TimeoutError`; it returns exactly when the Work Unit completes and
blocks forever when it never does. -/
theorem submit_wait_has_no_bound (ct : Option Nat) (o : SendOutcome) :
    futureResult App.resultCallTimeout ct o ≠ WaitResult.timedOut
    ∧ (∀ t, ct = some t →
        futureResult App.resultCallTimeout ct o = .completed o)
    ∧ (ct = none → futureResult App.resultCallTimeout ct o = .blocked) := by
  unfold futureResult App.resultCallTimeout
  rcases ct with _ | t <;> simp

/-- C2 (witness): a Work Unit completing at time 5 is delivered to the
caller rather than timing out. -/
theorem submit_wait_has_no_bound_witness :
    futureResult App.resultCallTimeout (some 5) SendOutcome.ok =
      WaitResult.completed SendOutcome.ok :=
  (submit_wait_has_no_bound (some 5) SendOutcome.ok).2.1 5 rfl

/-- C3: a notification request whose chat_id or message is missing (the
key absent maps to null) or empty fails validation in both variants:
HTTP 400 with the error body, zero Work Units enqueued and zero Session
send invocations. -/
theorem missing_field_rejected_before_bridge (req : NotifyRequest) (o : SendOutcome)
    (h : dictGet req.chat_id = .null ∨ dictGet req.chat_id = .str "" ∨
         dictGet req.message = .null ∨ dictGet req.message = .str "") :
    App.send_telegram_notification req o =
      { status := 400, body := .errorMsg "Missing chat_id or message",
        workUnitsEnqueued := 0, sessionSends := 0 }
    ∧ TgBot.send_telegram_notification req o =
      { status := 400, body := .errorMsg "Missing chat_id or message",
        workUnitsEnqueued := 0, sessionSends := 0 } := by
  unfold App.send_telegram_notification TgBot.send_telegram_notification
  rcases h with h | h | h | h <;> simp [h, Json.truthy]

/-- C3 (witness): a request with the message key absent is rejected. -/
theorem missing_field_rejected_before_bridge_witness :
    App.send_telegram_notification ⟨some (.str "482910"), none⟩ .ok =
      { status := 400, body := .errorMsg "Missing chat_id or message",
        workUnitsEnqueued := 0, sessionSends := 0 } :=
  (missing_field_rejected_before_bridge ⟨some (.str "482910"), none⟩ .ok
    (Or.inr (Or.inr (Or.inl rfl)))).1

/-- C4: with TELEGRAM_BOT_TOKEN absent from the environment, the app.py
entry point aborts startup with the fatal ValueError, but the
telegram_bot.py variant substitutes the hardcoded fallback credential
"YOUR_FALLBACK_DEV_TOKEN" and continues startup — a fallback value is
used in place of the required ConfigurationError. -/
theorem fallback_token_used_when_env_missing :
    TgBot.loadToken none = Except.ok "YOUR_FALLBACK_DEV_TOKEN"
    ∧ App.loadToken none =
        Except.error "TELEGRAM_BOT_TOKEN environment variable is missing." :=
  ⟨rfl, rfl⟩

/-- C5: registering the two distinct source command names succeeds, each
resolves to its own handler under dispatch, and re-registering either
already-present name fails with DuplicateCommandError naming it. -/
theorem register_duplicate_fails_distinct_dispatch
    (h : Handler) (cid : Int) (fn : Option String) :
    register [] "start" App.start = .ok [("start", App.start)]
    ∧ register [("start", App.start)] "mychatid" App.my_chat_id = .ok App.bot_registry
    ∧ register App.bot_registry "mychatid" h = .error ⟨"mychatid"⟩
    ∧ register App.bot_registry "start" h = .error ⟨"start"⟩
    ∧ processUpdate App.bot_registry ⟨cid, fn, "start"⟩ = App.start ⟨cid, fn, "start"⟩
    ∧ processUpdate App.bot_registry ⟨cid, fn, "mychatid"⟩ =
        App.my_chat_id ⟨cid, fn, "mychatid"⟩ :=
  ⟨rfl, rfl, rfl, rfl, rfl, rfl⟩

/-- C6: an inbound update carrying command "mychatid" from chat 482910
produces exactly one outbound reply, and that reply contains the literal
string "482910" — in both variants, whatever the first name. -/
theorem mychatid_reply_contains_chat_id (fn : Option String) :
    (processUpdate App.bot_registry ⟨482910, fn, "mychatid"⟩).length = 1
    ∧ "482910".data <:+:
        ((processUpdate App.bot_registry ⟨482910, fn, "mychatid"⟩).head!).data
    ∧ (processUpdate TgBot.bot_registry ⟨482910, fn, "mychatid"⟩).length = 1
    ∧ "482910".data <:+:
        ((processUpdate TgBot.bot_registry ⟨482910, fn, "mychatid"⟩).head!).data :=
  ⟨rfl, App.app_mychatid_reply_has_id fn, rfl, TgBot.tg_mychatid_reply_has_id fn⟩

/-- C7: with no WEBHOOK_URL configured, webhook registration is skipped
and startup proceeds; with a configured base address the registered
webhook is the base address followed by "/telegram-webhook"; a failing
set_webhook call exits the process with code 1. -/
theorem webhook_setup_behavior (u e : String) (o : Except String Unit) :
    App.webhook_startup_step none o = .proceed none
    ∧ App.webhook_startup_step (some u) (.ok ()) =
        .proceed (some (u ++ "/telegram-webhook"))
    ∧ App.webhook_startup_step (some u) (.error e) = .exited 1 :=
  ⟨rfl, rfl, rfl⟩

/-- C9: the "mychatid" reply greets the literal fallback display name
"User" when the first name is missing or empty, and greets the first
name itself otherwise — in both variants. -/
theorem mychatid_display_name_fallback (cid : Int) (fn : Option String) :
    (fn = none ∨ fn = some "" →
      greets ((App.my_chat_id ⟨cid, fn, "mychatid"⟩).head!) "User"
      ∧ greets ((TgBot.my_chat_id ⟨cid, fn, "mychatid"⟩).head!) "User")
    ∧ (∀ s, fn = some s → s ≠ "" →
      greets ((App.my_chat_id ⟨cid, fn, "mychatid"⟩).head!) s
      ∧ greets ((TgBot.my_chat_id ⟨cid, fn, "mychatid"⟩).head!) s) := by
  constructor
  · intro hfn
    have hd : user_display_name fn = "User" := by
      rcases hfn with h | h <;> simp [h, user_display_name]
    exact ⟨hd ▸ App.app_mychatid_greets_display cid fn,
           hd ▸ TgBot.tg_mychatid_greets_display cid fn⟩
  · intro s hs hne
    have hd : user_display_name fn = s := by
      simp [hs, user_display_name, hne]
    exact ⟨hd ▸ App.app_mychatid_greets_display cid fn,
           hd ▸ TgBot.tg_mychatid_greets_display cid fn⟩

/-- C9 (witness): an empty first name is greeted as "User". -/
theorem mychatid_display_name_fallback_witness :
    greets ((App.my_chat_id ⟨482910, some "", "mychatid"⟩).head!) "User" :=
  ((mychatid_display_name_fallback 482910 (some "")).1 (Or.inr rfl)).1

/-- C10: validation is Python truthiness, so every falsy chat_id or
message — including the key being absent, null, the empty string, and
the integer 0 — is rejected with the same 400 "Missing chat_id or
message" error and zero sends, in both variants. -/
theorem falsy_field_rejected (req : NotifyRequest) (o : SendOutcome)
    (h : (dictGet req.chat_id).truthy = false ∨
         (dictGet req.message).truthy = false) :
    (App.send_telegram_notification req o =
      { status := 400, body := .errorMsg "Missing chat_id or message",
        workUnitsEnqueued := 0, sessionSends := 0 }
     ∧ TgBot.send_telegram_notification req o =
      { status := 400, body := .errorMsg "Missing chat_id or message",
        workUnitsEnqueued := 0, sessionSends := 0 })
    ∧ (dictGet none).truthy = false
    ∧ Json.null.truthy = false
    ∧ (Json.str "").truthy = false
    ∧ (Json.int 0).truthy = false := by
  refine ⟨?_, rfl, rfl, by decide, by decide⟩
  unfold App.send_telegram_notification TgBot.send_telegram_notification
  rcases h with h | h <;> simp [h]

/-- C10 (witness): chat_id 0 with a non-empty message is rejected. -/
theorem falsy_field_rejected_witness :
    App.send_telegram_notification ⟨some (.int 0), some (.str "Hello")⟩ .ok =
      { status := 400, body := .errorMsg "Missing chat_id or message",
        workUnitsEnqueued := 0, sessionSends := 0 } :=
  ((falsy_field_rejected ⟨some (.int 0), some (.str "Hello")⟩ .ok
    (Or.inl (by decide))).1).1

end NotifyBot
